import Mathlib

/-!
Verification of the graph-exploration core of the ProyectoGrafos repository.

The Python sources are shallowly embedded:
* numeric values (energy, grass, ages, distances, times) are modelled as `ℚ`;
* Python dictionaries keyed by integer star ids are modelled as association
  lists (`List (Int × α)`) with in-place update semantics (`dict_set`);
* Python sets of edge pairs are modelled as duplicate-free lists with
  `set_add` / `set_discard`;
* code that can raise a Python exception is modelled in `Except PyErr`,
  where an `Except.error` result corresponds to the exception propagating
  out of the modelled call (any in-place mutation performed before the
  raise is dropped together with the aborted call, matching what a caller
  of the crashed function observes).

Every definition mirrors a function of the repository (file and line
references are given in the doc comments).
-/

set_option autoImplicit false

/-- The Python exceptions that the embedded code can raise. -/
inductive PyErr : Type where
  /-- `TypeError`, raised when a call passes keyword arguments the callee
  does not accept (here: `do_research(..., health_effect=..., life_effect=...)`). -/
  | typeError : PyErr
  /-- `AttributeError`, raised when an attribute lookup fails (here:
  `.items()` on the `list` returned by `get_neighbors_with_distance`). -/
  | attributeError : PyErr
  /-- `ZeroDivisionError`, raised by `/` when the divisor is `0`. -/
  | zeroDivisionError : PyErr
  deriving DecidableEq, Repr

/-- The five health states of `Donkey.HEALTH_STATES`
(src/src/models/donkey.py lines 13-19). -/
inductive HealthState : Type where
  | excelente : HealthState
  | buena : HealthState
  | mala : HealthState
  | moribundo : HealthState
  | muerto : HealthState
  deriving DecidableEq, Repr

/-- The `energy_per_kg` entry of `Donkey.HEALTH_STATES` for each state
(src/src/models/donkey.py lines 13-19). -/
def energy_per_kg_of : HealthState → ℚ
  | .excelente => 5
  | .buena => 3
  | .mala => 2
  | .moribundo => 1
  | .muerto => 0

/-- `Donkey._update_health_state` (src/src/models/donkey.py lines 180-191):
the health state recomputed from the current energy. -/
def update_health_state (energy : ℚ) : HealthState :=
  if energy ≥ 75 then .excelente
  else if energy ≥ 50 then .buena
  else if energy ≥ 25 then .mala
  else if energy > 0 then .moribundo
  else .muerto

/-- The mutable state of `Donkey` (src/src/models/donkey.py lines 21-44). -/
structure Donkey : Type where
  energy : ℚ
  health_state : HealthState
  grass_kg : ℚ
  start_age : ℚ
  current_age : ℚ
  death_age : ℚ
  visited_stars : List Int
  total_distance_traveled : ℚ
  grass_consumed : List (Int × ℚ)
  research_time : List (Int × ℚ)
  deriving DecidableEq, Repr

/-- `Donkey.__init__` with its default arguments
(src/src/models/donkey.py lines 21-44): `current_age` starts at `start_age`,
the ledgers start empty. -/
def Donkey.init (initial_energy : ℚ := 100) (health_state : HealthState := .excelente)
    (grass_kg : ℚ := 300) (start_age : ℚ := 12) (death_age : ℚ := 3567) : Donkey :=
  { energy := initial_energy
    health_state := health_state
    grass_kg := grass_kg
    start_age := start_age
    current_age := start_age
    death_age := death_age
    visited_stars := []
    total_distance_traveled := 0
    grass_consumed := []
    research_time := [] }

/-- `Donkey.is_alive` (src/src/models/donkey.py lines 46-48). -/
def Donkey.is_alive (d : Donkey) : Bool :=
  d.health_state ≠ .muerto && d.current_age < d.death_age

/-- `Donkey.get_remaining_life` (src/src/models/donkey.py lines 50-52). -/
def Donkey.get_remaining_life (d : Donkey) : ℚ :=
  max 0 (d.death_age - d.current_age)

/-- `Donkey.can_eat` (src/src/models/donkey.py lines 54-56): the guard checks
only that the energy is below 50, not that the donkey is alive. -/
def Donkey.can_eat (d : Donkey) : Bool :=
  d.energy < 50

/-- The dictionary returned by `Donkey.eat`
(src/src/models/donkey.py lines 97-101). -/
structure EatInfo : Type where
  kg_eaten : ℚ
  energy_gained : ℚ
  time_spent : ℚ
  deriving DecidableEq, Repr

/-- `Donkey.eat` (src/src/models/donkey.py lines 58-101).
`max_time_available` defaults to `None` in the source, modelled as `none`:
in that case the time-budget branch is skipped entirely.  The two Python
divisions are modelled fallibly: `kg_needed = energy_needed / energy_per_kg`
raises `ZeroDivisionError` when the health state is `Muerto`
(`energy_per_kg = 0`), and `kg_to_eat = max_time_available / star_time_to_eat`
raises when `star_time_to_eat = 0`. -/
def Donkey.eat (d : Donkey) (star_time_to_eat : ℚ)
    (max_time_available : Option ℚ := none) : Except PyErr (Donkey × EatInfo) :=
  if ¬ d.can_eat ∨ d.grass_kg ≤ 0 then
    .ok (d, { kg_eaten := 0, energy_gained := 0, time_spent := 0 })
  else
    let energy_needed : ℚ := 100 - d.energy
    let epk : ℚ := energy_per_kg_of d.health_state
    if epk = 0 then .error .zeroDivisionError
    else
      let kg_needed : ℚ := energy_needed / epk
      let kg_to_eat : ℚ := min kg_needed d.grass_kg
      let time_needed : ℚ := kg_to_eat * star_time_to_eat
      match max_time_available with
      | some mta =>
        if time_needed > mta then
          if star_time_to_eat = 0 then .error .zeroDivisionError
          else
            let kg2 : ℚ := mta / star_time_to_eat
            let energy_gained : ℚ := kg2 * epk
            .ok ({ d with energy := min 100 (d.energy + energy_gained)
                          grass_kg := d.grass_kg - kg2 },
                 { kg_eaten := kg2, energy_gained := energy_gained, time_spent := mta })
        else
          let energy_gained : ℚ := kg_to_eat * epk
          .ok ({ d with energy := min 100 (d.energy + energy_gained)
                        grass_kg := d.grass_kg - kg_to_eat },
               { kg_eaten := kg_to_eat, energy_gained := energy_gained,
                 time_spent := time_needed })
      | none =>
        let energy_gained : ℚ := kg_to_eat * epk
        .ok ({ d with energy := min 100 (d.energy + energy_gained)
                      grass_kg := d.grass_kg - kg_to_eat },
             { kg_eaten := kg_to_eat, energy_gained := energy_gained,
               time_spent := time_needed })

/-- `Donkey.travel` (src/src/models/donkey.py lines 103-121): advances age and
the cumulative distance, and flips the health state to `Muerto` (returning
`false`) when the new age reaches or exceeds `death_age`. -/
def Donkey.travel (d : Donkey) (distance_light_years : ℚ) : Donkey × Bool :=
  let d1 := { d with current_age := d.current_age + distance_light_years
                     total_distance_traveled :=
                       d.total_distance_traveled + distance_light_years }
  if d1.current_age ≥ d1.death_age then
    ({ d1 with health_state := .muerto }, false)
  else
    (d1, true)

/-- `Donkey.do_research` exactly as defined in the repository
(src/src/models/donkey.py lines 123-146): it accepts only `time_spent` and
`energy_cost_per_time` (no `health_effect` or `life_effect` parameters) and
returns a bare boolean, not a result dictionary. -/
def Donkey.do_research (d : Donkey) (time_spent energy_cost_per_time : ℚ) :
    Donkey × Bool :=
  let energy_consumed : ℚ := time_spent * energy_cost_per_time
  let e : ℚ := d.energy - energy_consumed
  if e ≤ 0 then
    ({ d with energy := 0, health_state := .muerto }, false)
  else
    ({ d with energy := e, health_state := update_health_state e }, true)

/-- `Donkey.visit_star` (src/src/models/donkey.py lines 148-151). -/
def Donkey.visit_star (d : Donkey) (star_id : Int) : Donkey :=
  if star_id ∈ d.visited_stars then d
  else { d with visited_stars := d.visited_stars ++ [star_id] }

/-- `Donkey.use_hypergiant_portal` (src/src/models/donkey.py lines 169-178):
multiplies the energy by 1.5 (clamped to 100) and doubles the grass. -/
def Donkey.use_hypergiant_portal (d : Donkey) : Donkey :=
  { d with energy := min 100 (d.energy * (3 / 2))
           grass_kg := d.grass_kg * 2 }

/-- Lookup in a Python dictionary keyed by star ids (`m.get(k)` /
`m[k]` when the key is present). -/
def dict_get {α : Type} : List (Int × α) → Int → Option α
  | [], _ => none
  | (k1, v1) :: rest, k => if k1 = k then some v1 else dict_get rest k

/-- Update of a Python dictionary (`m[k] = v`): overwrites the first entry
with the key, appends the pair when the key is absent. -/
def dict_set {α : Type} : List (Int × α) → Int → α → List (Int × α)
  | [], k, v => [(k, v)]
  | (k1, v1) :: rest, k, v =>
    if k1 = k then (k, v) :: rest else (k1, v1) :: dict_set rest k v

/-- `Donkey.record_grass_consumption` (src/src/models/donkey.py lines 157-161). -/
def Donkey.record_grass_consumption (d : Donkey) (star_id : Int) (kg_consumed : ℚ) :
    Donkey :=
  let prev : ℚ := (dict_get d.grass_consumed star_id).getD 0
  { d with grass_consumed := dict_set d.grass_consumed star_id (prev + kg_consumed) }

/-- `Donkey.record_research_time` (src/src/models/donkey.py lines 163-167). -/
def Donkey.record_research_time (d : Donkey) (star_id : Int) (time_spent : ℚ) :
    Donkey :=
  let prev : ℚ := (dict_get d.research_time star_id).getD 0
  { d with research_time := dict_set d.research_time star_id (prev + time_spent) }

/-- `OptimalRouteFinder._clone_donkey`
(src/src/algorithms/optimal_route_finder.py lines 185-212): builds a fresh
`Donkey` from the original's fields and then copies over the travelling state,
so every field of the clone equals the original's. -/
def clone_donkey (d : Donkey) : Donkey :=
  { energy := d.energy
    health_state := d.health_state
    grass_kg := d.grass_kg
    start_age := d.start_age
    current_age := d.current_age
    death_age := d.death_age
    visited_stars := d.visited_stars
    total_distance_traveled := d.total_distance_traveled
    grass_consumed := d.grass_consumed
    research_time := d.research_time }

/-- The adjacency structure of `graphBase`
(src/src/models/graphBase.py line 6): a dictionary mapping each star id to
the dictionary of its neighbors with their distances. -/
def Adjacency : Type := List (Int × List (Int × ℚ))

/-- `graphBase.add_vertex` (src/src/models/graphBase.py lines 8-11):
adds the vertex with an empty neighbor dictionary only when it is absent. -/
def add_vertex (adj : Adjacency) (star_id : Int) : Adjacency :=
  match dict_get adj star_id with
  | some _ => adj
  | none => dict_set adj star_id []

/-- `graphBase.get_neighbors` (src/src/models/graphBase.py lines 21-24):
the neighbor dictionary of the vertex, empty when the vertex is absent. -/
def get_neighbors (adj : Adjacency) (star_id : Int) : List (Int × ℚ) :=
  (dict_get adj star_id).getD []

/-- `graphBase.add_edge` (src/src/models/graphBase.py lines 13-19):
ensures both endpoints exist, then writes the distance in both directions. -/
def add_edge (adj : Adjacency) (from_star to_star : Int) (distance : ℚ) : Adjacency :=
  let g1 := add_vertex (add_vertex adj from_star) to_star
  let g2 := dict_set g1 from_star (dict_set (get_neighbors g1 from_star) to_star distance)
  dict_set g2 to_star (dict_set (get_neighbors g2 to_star) from_star distance)

/-- `graphBase.get_vertices` (src/src/models/graphBase.py lines 26-28). -/
def get_vertices (adj : Adjacency) : List Int :=
  adj.map (·.1)

/-- The per-star data consumed by the simulator from the `star_map`
dictionaries: `star_data.get("timeToEat", 1)` and
`star_data.get("hypergiant", False)`. -/
structure StarData : Type where
  timeToEat : ℚ := 1
  hypergiant : Bool := false
  deriving DecidableEq, Repr

/-- `StarGraph` (src/src/models/star_graph.py lines 9-24) together with its
lazily created `blocked_edges` set (lines 148-151), which starts empty. -/
structure StarGraph : Type where
  graph : Adjacency
  star_map : List (Int × StarData)
  blocked_edges : List (Int × Int) := []

/-- `tuple(sorted((star_id1, star_id2)))`
(src/src/models/star_graph.py lines 158 and 169). -/
def sorted_pair (a b : Int) : Int × Int :=
  if a ≤ b then (a, b) else (b, a)

/-- Python `set.add`: no-op when the element is already present. -/
def set_add (s : List (Int × Int)) (e : Int × Int) : List (Int × Int) :=
  if e ∈ s then s else e :: s

/-- Python `set.discard`: removes the element when present. -/
def set_discard (s : List (Int × Int)) (e : Int × Int) : List (Int × Int) :=
  s.filter (· ≠ e)

/-- `StarGraph.set_edge_blocked` (src/src/models/star_graph.py lines 153-162):
adds or discards the sorted pair in the `blocked_edges` set. -/
def StarGraph.set_edge_blocked (sg : StarGraph) (star_id1 star_id2 : Int)
    (blocked : Bool := true) : StarGraph :=
  let edge := sorted_pair star_id1 star_id2
  if blocked then { sg with blocked_edges := set_add sg.blocked_edges edge }
  else { sg with blocked_edges := set_discard sg.blocked_edges edge }

/-- `StarGraph.is_edge_blocked` (src/src/models/star_graph.py lines 164-169). -/
def StarGraph.is_edge_blocked (sg : StarGraph) (star_id1 star_id2 : Int) : Bool :=
  sorted_pair star_id1 star_id2 ∈ sg.blocked_edges

/-- `StarGraph.get_neighbors_with_distance` — the *second* definition in the
class body, which shadows the first (src/src/models/star_graph.py
lines 185-196): the underlying neighbor dictionary filtered by the blocked
set, returned as a `list` of `(neighbor_id, distance)` tuples. -/
def StarGraph.get_neighbors_with_distance (sg : StarGraph) (star_id : Int) :
    List (Int × ℚ) :=
  (get_neighbors sg.graph star_id).filter
    (fun p => ¬ sg.is_edge_blocked star_id p.1)

/-- `StarGraph.get_distance_between` (src/src/models/star_graph.py
lines 93-105): a raw lookup in the neighbor dictionary, which ignores the
blocked set. -/
def StarGraph.get_distance_between (sg : StarGraph) (star_id1 star_id2 : Int) :
    Option ℚ :=
  dict_get (get_neighbors sg.graph star_id1) star_id2

/-- `StarGraph.get_star` (src/src/models/star_graph.py lines 53-63). -/
def StarGraph.get_star (sg : StarGraph) (star_id : Int) : Option StarData :=
  dict_get sg.star_map star_id

/-- `StarGraph.get_all_vertices` (src/src/models/star_graph.py lines 26-33). -/
def StarGraph.get_all_vertices (sg : StarGraph) : List Int :=
  get_vertices sg.graph

/-- A per-star research configuration entry, with the default values used by
`RouteSimulator.simulate_star_visit` when the star is unconfigured
(src/src/algorithms/optimal_route.py lines 154-159). -/
structure ResearchParams : Type where
  research_time : ℚ := 5
  energy_cost_per_time : ℚ := 1
  health_effect : ℚ := 0
  life_effect : ℚ := 0
  deriving DecidableEq, Repr

/-- The observable outcome of `RouteSimulator.simulate_star_visit`
(src/src/algorithms/optimal_route.py lines 65-74): the `success` flag, the
death reason, and the donkey state stored in the result.  (The
`travel_result`/`eat_result` sub-dictionaries are omitted: on every return
path that the function can actually reach they are either absent or fully
determined by the fields kept here.) -/
structure VisitResult : Type where
  success : Bool
  death_reason : Option String
  donkey_state : Donkey
  deriving DecidableEq, Repr

/-- `RouteSimulator.simulate_star_visit`
(src/src/algorithms/optimal_route.py lines 38-206).

Steps 1-3 (travel, visit bookkeeping, star lookup, conditional eating) are
modelled directly from the source.  Step 4 executes

  `donkey.do_research(time_spent=..., energy_cost_per_time=...,
                      health_effect=..., life_effect=...)`

but `Donkey.do_research` (src/src/models/donkey.py line 123) accepts only
`(self, time_spent, energy_cost_per_time)`, so the Python interpreter raises
`TypeError: do_research() got an unexpected keyword argument` at the call
site, before any of `do_research`'s body runs; the model therefore returns
`Except.error PyErr.typeError` there, and the portal / snapshot steps 5-6
below that call are unreachable. -/
def simulate_star_visit (sg : StarGraph)
    (research_config : List (Int × ResearchParams)) (donkey : Donkey)
    (current_star_id : Option Int) (next_star_id : Int) :
    Except PyErr VisitResult :=
  -- Step 1: travel (only when there is a current star).
  let step1 : Except PyErr (Except VisitResult Donkey) :=
    match current_star_id with
    | none => .ok (.ok donkey)
    | some cur =>
      match sg.get_distance_between cur next_star_id with
      | none =>
        .ok (.error { success := false
                      death_reason := some "No hay conexión entre estrellas"
                      donkey_state := donkey })
      | some distance =>
        let tr := donkey.travel distance
        if tr.2 then .ok (.ok tr.1)
        else
          .ok (.error { success := false
                        death_reason := some "El burro murió de anciano"
                        donkey_state := tr.1 })
  match step1 with
  | .error e => .error e
  | .ok (.error r) => .ok r
  | .ok (.ok d1) =>
    -- Step 2: record the visit.
    let d2 := d1.visit_star next_star_id
    -- Star lookup.
    match dict_get sg.star_map next_star_id with
    | none =>
      .ok { success := false
            death_reason := some "Estrella no encontrada en el mapa"
            donkey_state := d2 }
    | some star_data =>
      -- Step 3: eat when the energy is below 50 (max_eat_time = 5).
      let eat_step : Except PyErr Donkey :=
        if d2.can_eat then
          match d2.eat star_data.timeToEat (some 5) with
          | .error e => .error e
          | .ok (d3, info) =>
            if info.kg_eaten > 0 then
              .ok (d3.record_grass_consumption next_star_id info.kg_eaten)
            else .ok d3
        else .ok d2
      match eat_step with
      | .error e => .error e
      | .ok _d3 =>
        -- Step 4: the research parameters are looked up (with defaults) ...
        let _research_params : ResearchParams :=
          (dict_get research_config next_star_id).getD {}
        -- ... and then the call
        -- `donkey.do_research(time_spent=..., energy_cost_per_time=...,
        --                     health_effect=..., life_effect=...)`
        -- raises TypeError, because Donkey.do_research does not accept the
        -- keyword arguments health_effect / life_effect.
        .error .typeError

/-- The result dictionary of `dijkstra_max_exploration`
(src/src/algorithms/max_exploration.py lines 36-44 and 59-65, plus the
`iterations` / `remaining_life` keys added at lines 124-126). -/
structure ExplorationResult : Type where
  route : List Int
  total_distance : ℚ
  stars_visited : Nat
  final_age : ℚ
  success : Bool
  message : Option String := none
  iterations : Nat := 0
  remaining_life : ℚ := 0
  deriving DecidableEq, Repr

/-- A state of the priority queue of `dijkstra_max_exploration`
(src/src/algorithms/max_exploration.py lines 46-54):
`(-(number visited), current age, current star, route, visited set)`.
The Python visited `set` always equals the set of elements of `route`, so it
is represented by `route` itself. -/
structure ExploState : Type where
  neg_count : Int
  current_age : ℚ
  current_star : Int
  route : List Int
  deriving DecidableEq, Repr

/-- The cumulative-distance computation at the top of each loop iteration of
`dijkstra_max_exploration` (src/src/algorithms/max_exploration.py
lines 78-83).  Python's `if dist:` skips both `None` and `0`. -/
def route_total_distance (sg : StarGraph) : List Int → ℚ
  | [] => 0
  | [_] => 0
  | a :: b :: rest =>
    (match sg.get_distance_between a b with
     | some w => if w = 0 then 0 else w
     | none => 0) + route_total_distance sg (b :: rest)

/-- The `while heap and iterations < max_iterations` loop of
`dijkstra_max_exploration` (src/src/algorithms/max_exploration.py
lines 71-122), with the remaining iteration budget as fuel.

After popping a state the body computes the route distance, possibly updates
the best solution, computes
`neighbors = star_graph.get_neighbors_with_distance(current_star)` — a
`list`, since the second definition of `get_neighbors_with_distance` in
`StarGraph` shadows the first — and then executes
`for neighbor_id, distance in neighbors.items():` (line 98), which raises
`AttributeError` because a `list` has no `.items()` method.  The push at
line 122 is therefore unreachable, so the heap never holds more than its
initial single element and the `heapq` pop order is immaterial: the pop is
modelled as taking the head of the queue. -/
def explo_loop (sg : StarGraph) :
    Nat → List ExploState → ExplorationResult →
    Except PyErr ExplorationResult
  | 0, _, best => .ok best
  | _ + 1, [], best => .ok best
  | fuel + 1, st :: _rest, best =>
    let num_visited : Int := -st.neg_count
    let total_distance := route_total_distance sg st.route
    let best1 :=
      if num_visited > (best.stars_visited : Int) then
        { route := st.route
          total_distance := total_distance
          stars_visited := num_visited.toNat
          final_age := st.current_age
          success := true }
      else best
    let _neighbors := sg.get_neighbors_with_distance st.current_star
    -- `neighbors.items()` raises AttributeError: neighbors is a list.
    let _ := fuel
    let _ := best1
    .error .attributeError

/-- `dijkstra_max_exploration`
(src/src/algorithms/max_exploration.py lines 11-128): the missing-start check,
the initial state/best solution, and the bounded loop
(`max_iterations = 10000`, line 69). -/
def dijkstra_max_exploration (sg : StarGraph) (donkey : Donkey)
    (start_star_id : Int) : Except PyErr ExplorationResult :=
  match sg.get_star start_star_id with
  | none =>
    .ok { route := []
          total_distance := 0
          stars_visited := 0
          final_age := donkey.current_age
          success := false
          message := some ("Estrella inicial " ++ toString start_star_id ++ " no existe") }
  | some _ =>
    let initial_state : ExploState :=
      { neg_count := -1
        current_age := donkey.current_age
        current_star := start_star_id
        route := [start_star_id] }
    let best : ExplorationResult :=
      { route := [start_star_id]
        total_distance := 0
        stars_visited := 1
        final_age := donkey.current_age
        success := true }
    (explo_loop sg 10000 [initial_state] best).map
      (fun b => { b with remaining_life := donkey.death_age - b.final_age })

/-- A priority-queue entry of `OptimalRouteFinder.calculate_optimal_route`
(src/src/algorithms/optimal_route_finder.py lines 72-80):
`(priority, num_visited, energy_spent, star, path, donkey, steps)`. -/
structure RouteState : Type where
  priority : ℚ
  num_visited : Nat
  energy_spent : ℚ
  star : Int
  path : List Int
  donkey : Donkey
  steps : List VisitResult
  deriving DecidableEq, Repr

/-- The best-so-far record of `calculate_optimal_route`
(src/src/algorithms/optimal_route_finder.py lines 82-89). -/
structure BestRoute : Type where
  stars_visited : Nat
  route : List Int
  energy_spent : ℚ
  donkey_state : Donkey
  simulation_steps : List VisitResult
  deriving DecidableEq, Repr

/-- The final dictionary returned by `calculate_optimal_route`
(src/src/algorithms/optimal_route_finder.py lines 50-60 and 174-183). -/
structure OptimalRouteResult : Type where
  success : Bool
  route : List Int
  simulation_steps : List VisitResult
  final_donkey_state : Option Donkey
  total_stars_visited : Nat
  total_energy_spent : ℚ
  message : String
  deriving DecidableEq, Repr

/-- The `for neighbor_id, distance in neighbors:` body of
`calculate_optimal_route` (src/src/algorithms/optimal_route_finder.py
lines 126-172), processing the neighbor list in order and threading the
priority queue and the `(star, count)` visited-state set.  An exception
raised by `simulate_star_visit` propagates (there is no `try` in the loop);
a simulated death (`success == False`) skips the neighbor. -/
def expand_neighbors (sg : StarGraph) (research_config : List (Int × ResearchParams))
    (st : RouteState) :
    List (Int × ℚ) → List RouteState → List (Int × Nat) →
    Except PyErr (List RouteState × List (Int × Nat))
  | [], queue, visited_states => .ok (queue, visited_states)
  | (neighbor_id, _distance) :: rest, queue, visited_states =>
    if neighbor_id ∈ st.path then
      expand_neighbors sg research_config st rest queue visited_states
    else
      let test_donkey := clone_donkey st.donkey
      match simulate_star_visit sg research_config test_donkey (some st.star) neighbor_id with
      | .error e => .error e
      | .ok visit_result =>
        if ¬ visit_result.success then
          expand_neighbors sg research_config st rest queue visited_states
        else
          -- Unreachable in the code as written: simulate_star_visit never
          -- returns success = true (its research step raises TypeError);
          -- the push is still modelled, as a cons onto the queue (with the
          -- heap order immaterial, the queue being otherwise empty).
          let energy_consumed := st.donkey.energy - visit_result.donkey_state.energy
          let new_energy_spent := st.energy_spent + energy_consumed
          let new_path := st.path ++ [neighbor_id]
          let new_steps := st.steps ++ [visit_result]
          let new_num_visited := st.num_visited + 1
          let state := (neighbor_id, new_num_visited)
          if state ∈ visited_states then
            expand_neighbors sg research_config st rest queue visited_states
          else
            let new_priority : ℚ := -(new_num_visited * 1000 : ℚ) + new_energy_spent
            let new_state : RouteState :=
              { priority := new_priority
                num_visited := new_num_visited
                energy_spent := new_energy_spent
                star := neighbor_id
                path := new_path
                donkey := visit_result.donkey_state
                steps := new_steps }
            expand_neighbors sg research_config st rest (new_state :: queue)
              (state :: visited_states)

/-- The `while priority_queue and iteration < max_iterations` loop of
`calculate_optimal_route` (src/src/algorithms/optimal_route_finder.py
lines 99-172): pop, update the best result, expand the neighbors.  As in
`explo_loop`, pushes never actually occur (every surviving branch raises
TypeError inside `simulate_star_visit`), so the queue holds at most its
initial element and popping the head agrees with `heapq.heappop`. -/
def route_loop (sg : StarGraph) (research_config : List (Int × ResearchParams)) :
    Nat → List RouteState → List (Int × Nat) → BestRoute →
    Except PyErr BestRoute
  | 0, _, _, best => .ok best
  | _ + 1, [], _, best => .ok best
  | fuel + 1, st :: rest, visited_states, best =>
    let best1 :=
      if st.num_visited > best.stars_visited then
        { stars_visited := st.num_visited
          route := st.path
          energy_spent := st.energy_spent
          donkey_state := st.donkey
          simulation_steps := st.steps }
      else if st.num_visited = best.stars_visited ∧ st.energy_spent < best.energy_spent then
        { stars_visited := st.num_visited
          route := st.path
          energy_spent := st.energy_spent
          donkey_state := st.donkey
          simulation_steps := st.steps }
      else best
    let neighbors := sg.get_neighbors_with_distance st.star
    match expand_neighbors sg research_config st neighbors rest visited_states with
    | .error e => .error e
    | .ok (queue1, visited1) => route_loop sg research_config fuel queue1 visited1 best1

/-- `OptimalRouteFinder.calculate_optimal_route`
(src/src/algorithms/optimal_route_finder.py lines 26-183): the
missing-start check, the cloned initial donkey, the initial queue /
visited-state set / best result, the bounded loop (`max_iterations = 10000`,
line 96), and the final result dictionary. -/
def calculate_optimal_route (sg : StarGraph) (start_star_id : Int)
    (donkey : Donkey) (research_config : List (Int × ResearchParams)) :
    Except PyErr OptimalRouteResult :=
  if start_star_id ∈ sg.get_all_vertices then
    let initial_donkey := (clone_donkey donkey).visit_star start_star_id
    let q0 : List RouteState :=
      [{ priority := -(1 * 1000 : ℚ) + 0
         num_visited := 1
         energy_spent := 0
         star := start_star_id
         path := [start_star_id]
         donkey := initial_donkey
         steps := [] }]
    let best0 : BestRoute :=
      { stars_visited := 1
        route := [start_star_id]
        energy_spent := 0
        donkey_state := initial_donkey
        simulation_steps := [] }
    let visited0 : List (Int × Nat) := [(start_star_id, 1)]
    (route_loop sg research_config 10000 q0 visited0 best0).map
      (fun best =>
        { success := true
          route := best.route
          simulation_steps := best.simulation_steps
          final_donkey_state := some best.donkey_state
          total_stars_visited := best.stars_visited
          total_energy_spent := best.energy_spent
          message := "Ruta óptima encontrada: " ++ toString best.stars_visited ++
                     " estrellas visitadas" })
  else
    .ok { success := false
          route := []
          simulation_steps := []
          final_donkey_state := none
          total_stars_visited := 0
          total_energy_spent := 0
          message := "Estrella inicial " ++ toString start_star_id ++
                     " no existe en el grafo" }

/-- One agent-state operation from the eat / research / portal repertoire of
`Donkey` (src/src/models/donkey.py lines 58-101, 123-146, 169-178). -/
inductive DonkeyOp : Type where
  | eat_op (star_time_to_eat : ℚ) (max_time_available : Option ℚ) : DonkeyOp
  | research_op (time_spent energy_cost_per_time : ℚ) : DonkeyOp
  | portal_op : DonkeyOp
  deriving DecidableEq, Repr

/-- Applies one `DonkeyOp`; only `eat` can raise. -/
def donkey_step (d : Donkey) : DonkeyOp → Except PyErr Donkey
  | .eat_op t m => (d.eat t m).map (·.1)
  | .research_op t c => .ok (d.do_research t c).1
  | .portal_op => .ok d.use_hypergiant_portal

/-- Runs a sequence of agent-state operations.  An exception raised by `eat`
aborts the remaining operations; since the raise happens before `eat`
mutates any field, the agent keeps the state it had when the exception was
raised. -/
def run_donkey_ops : Donkey → List DonkeyOp → Donkey
  | d, [] => d
  | d, op :: rest =>
    match donkey_step d op with
    | .ok d1 => run_donkey_ops d1 rest
    | .error _ => d

/-- All numeric parameters of the operation are non-negative. -/
def DonkeyOp.nonneg : DonkeyOp → Bool
  | .eat_op t m =>
    decide (0 ≤ t) && (match m with | none => true | some x => decide (0 ≤ x))
  | .research_op t c => decide (0 ≤ t) && decide (0 ≤ c)
  | .portal_op => true

/-- One graph-store mutation: `graphBase.add_edge`
(src/src/models/graphBase.py lines 13-19) or `StarGraph.set_edge_blocked`
(src/src/models/star_graph.py lines 153-162). -/
inductive GraphOp : Type where
  | add_edge_op (a b : Int) (w : ℚ) : GraphOp
  | set_blocked_op (a b : Int) (blocked : Bool) : GraphOp
  deriving DecidableEq, Repr

/-- Applies one `GraphOp` to a `StarGraph`. -/
def graph_step (sg : StarGraph) : GraphOp → StarGraph
  | .add_edge_op a b w => { sg with graph := add_edge sg.graph a b w }
  | .set_blocked_op a b bl => sg.set_edge_blocked a b bl

/-- Runs a sequence of graph-store mutations. -/
def run_graph_ops (sg : StarGraph) (ops : List GraphOp) : StarGraph :=
  ops.foldl graph_step sg

/-- The weight stored for the directed entry `a → b` of the adjacency:
`neighbors(a)` contains `(b, w)` exactly when this is `some w`. -/
def edge_weight (adj : Adjacency) (a b : Int) : Option ℚ :=
  dict_get (get_neighbors adj a) b

/-- A `StarGraph` with an empty adjacency and no blocked edges, the state in
which every graph is created before edges are loaded. -/
def empty_star_graph (star_map : List (Int × StarData)) : StarGraph :=
  { graph := [], star_map := star_map, blocked_edges := [] }

/-- Concrete input for claim C1: a single star `1` with default star data
and an unconfigured research map; the donkey is a fresh default `Donkey`. -/
def sg_c1 : StarGraph :=
  { graph := add_vertex [] 1, star_map := [(1, {})], blocked_edges := [] }

/-- Concrete input for claim C2: stars `1` and `2` joined by an edge of
weight 1; star `2` is configured with `energy_cost_per_time = 20` and
`research_time = 1`. -/
def sg_c2 : StarGraph :=
  { graph := add_edge [] 1 2 1, star_map := [(1, {}), (2, {})], blocked_edges := [] }

/-- The C2 agent: energy 10, no food, far from its death age. -/
def d_c2 : Donkey := Donkey.init 10 .moribundo 0 0 1000

/-- The C2 research configuration for star `2`. -/
def config_c2 : List (Int × ResearchParams) :=
  [(2, { research_time := 1, energy_cost_per_time := 20 })]

/-- Concrete input for claim C3, the graph of the spec scenario:
edges 1-2 of weight 50, 2-3 of weight 40, 1-3 of weight 90. -/
def sg_c3 : StarGraph :=
  { graph := add_edge (add_edge (add_edge [] 1 2 50) 2 3 40) 1 3 90
    star_map := [(1, {}), (2, {}), (3, {})]
    blocked_edges := [] }

/-- The C3 agent: start age 10, death age 130. -/
def d_c3 : Donkey := Donkey.init 100 .excelente 300 10 130

/-- Concrete input for the C4 counterexample: a single star `7` with no
neighbors at all. -/
def sg_c4 : StarGraph :=
  { graph := add_vertex [] 7, star_map := [(7, {})], blocked_edges := [] }

/-- Concrete input for the C4 witness: a single star `9`. -/
def sg_c4w : StarGraph :=
  { graph := add_vertex [] 9, star_map := [(9, {})], blocked_edges := [] }

/-- Concrete agent for claim C6: energy 10 (so 18 kg are needed to refill at
5 energy per kg) and plenty of grass. -/
def d_c6 : Donkey := Donkey.init 10 .excelente 300 12 3567

/-- Concrete agent for the C7 witness. -/
def d_c7 : Donkey := Donkey.init 40 .mala 20 12 3567

/-- Concrete operation sequence for the C7 witness. -/
def ops_c7 : List DonkeyOp :=
  [.eat_op 1 (some 5), .research_op 3 2, .portal_op, .eat_op 2 none,
   .research_op 100 1, .eat_op 1 (some 5)]

/-- Concrete graph for the C9 witness: stars 1, 2, 3 with edges 1-2 and 2-3,
nothing blocked. -/
def sg_c9 : StarGraph :=
  { graph := add_edge (add_edge [] 1 2 7) 2 3 4
    star_map := [(1, {}), (2, {}), (3, {})]
    blocked_edges := [] }

/-- Concrete agent for the C10 witness: dead, but with energy 30 and grass
left — the state a donkey reaches when `travel` kills it by age while its
energy is still positive. -/
def d_c10 : Donkey :=
  { Donkey.init 30 .mala 50 10 20 with current_age := 25, health_state := .muerto }

/-- Claim C1 (status: code_bug).  The claim describes a research operation
`research(time_spent, energy_cost_per_time, health_effect, life_effect)`
returning a success record — the contract that
`RouteSimulator.simulate_star_visit` calls (optimal_route.py lines 162-167)
— but `Donkey.do_research` (donkey.py line 123) accepts only
`(time_spent, energy_cost_per_time)` and returns a bool, so the call raises
`TypeError` on every research step.  This theorem evaluates the code at a
failing input: a fresh default donkey visiting star 1 (no travel, energy 100
so no eating) reaches the research call and the visit raises `TypeError`
instead of performing the claimed research. -/
theorem c1_research_call_raises_type_error :
    simulate_star_visit sg_c1 [] Donkey.init none 1 = .error .typeError := by
  rfl

/-- Claim C2 (status: code_bug).  On the spec scenario — agent with
energy 10, food 0, death_age 1000, edge of weight 1 into star 2 with
research `energy_cost_per_time = 20`, `time = 1` — the claim says the death
is caught at the branch level and the branch is discarded while the search
continues.  In the code, the branch's `simulate_star_visit` raises
`TypeError` at the research call (before the claimed energy subtraction can
even happen), and there is no `try` around it, so the exception propagates
out of `calculate_optimal_route` as a hard failure. -/
theorem c2_route_search_crashes_instead_of_pruning :
    calculate_optimal_route sg_c2 1 d_c2 config_c2 = .error .typeError := by
  norm_num [calculate_optimal_route, route_loop, expand_neighbors, simulate_star_visit,
    sg_c2, d_c2, config_c2, StarGraph.get_all_vertices, get_vertices, add_edge, add_vertex,
    dict_get, dict_set, get_neighbors, StarGraph.get_neighbors_with_distance,
    StarGraph.is_edge_blocked, StarGraph.get_distance_between, StarGraph.get_star,
    clone_donkey, Donkey.init, Donkey.visit_star, Donkey.travel, Donkey.can_eat,
    Donkey.eat, Donkey.record_grass_consumption, energy_per_kg_of, sorted_pair,
    Except.map]

/-- Claim C3 (status: code_bug).  On the spec scenario (edges 1-2 = 50,
2-3 = 40, 1-3 = 90, start_age 10, death_age 130, start 1) the claim says the
exploration search returns the path `[1, 2, 3]` with distance 90 and final
age 100.  The code instead raises `AttributeError` during the first loop
iteration: `max_exploration.py` line 98 calls `.items()` on the result of
`StarGraph.get_neighbors_with_distance`, which is a `list`. -/
theorem c3_exploration_crashes_on_spec_scenario :
    dijkstra_max_exploration sg_c3 d_c3 1 = .error .attributeError := by
  rfl

/-- Claim C4, amended (status: corrected).  The loop of
`dijkstra_max_exploration` carries an explicit `max_iterations = 10000`
safety cap (max_exploration.py line 69), so the claim's "no iteration cap"
is false of the code; and the search never terminates by queue exhaustion
when the start star exists: the first loop iteration raises
`AttributeError` at the neighbor expansion (`.items()` on a list), for every
graph, agent and start star. -/
theorem c4_exploration_raises_whenever_start_exists (sg : StarGraph)
    (donkey : Donkey) (start_star_id : Int) (sd : StarData)
    (h : sg.get_star start_star_id = some sd) :
    dijkstra_max_exploration sg donkey start_star_id = .error .attributeError := by
  unfold dijkstra_max_exploration
  rw [h]
  rfl

/-- Counterexample to claim C4 as stated: on the one-star graph `sg_c4`
(star 7, no neighbors) the function does not return at all — no normal
(`Except.ok`) result exists, because the run terminates by raising
`AttributeError`, not by exhausting its queue. -/
theorem c4_counterexample_no_normal_return :
    ¬ ∃ r, dijkstra_max_exploration sg_c4 Donkey.init 7 = .ok r := by
  rintro ⟨r, hr⟩
  have h : dijkstra_max_exploration sg_c4 Donkey.init 7 = .error .attributeError := rfl
  rw [h] at hr
  exact Except.noConfusion hr

/-- Witness for the amended C4 theorem at a concrete input. -/
theorem c4_witness :
    sg_c4w.get_star 9 = some {} ∧
      dijkstra_max_exploration sg_c4w Donkey.init 9 = .error .attributeError :=
  ⟨rfl, c4_exploration_raises_whenever_start_exists sg_c4w Donkey.init 9 {} rfl⟩

/-- Claim C10 (status: confirmed).  For every donkey whose health state is
`Muerto` while its energy is below 50 and its grass stock is positive,
`eat` reaches the division `energy_needed / energy_per_kg` with the dead
state's `energy_per_kg = 0` and raises `ZeroDivisionError` instead of
returning the all-zero result: `can_eat` checks only `energy < 50`, not
aliveness. -/
theorem c10_dead_donkey_eat_divides_by_zero (d : Donkey) (t : ℚ) (m : Option ℚ)
    (hdead : d.health_state = .muerto) (h50 : d.energy < 50)
    (hg : 0 < d.grass_kg) :
    d.eat t m = .error .zeroDivisionError := by
  have hce : d.can_eat = true := by
    simp [Donkey.can_eat, h50]
  simp only [Donkey.eat, hce, hdead, energy_per_kg_of]
  simp [not_le.mpr hg]

/-- Witness for the C10 theorem: `d_c10` is a donkey that `travel` has
killed by age while its energy was 30 and grass 50. -/
theorem c10_witness :
    d_c10.health_state = .muerto ∧ d_c10.energy < 50 ∧ 0 < d_c10.grass_kg ∧
      d_c10.eat 2 none = .error .zeroDivisionError :=
  ⟨rfl, by norm_num [d_c10, Donkey.init], by norm_num [d_c10, Donkey.init],
    c10_dead_donkey_eat_divides_by_zero d_c10 2 none rfl
      (by norm_num [d_c10, Donkey.init]) (by norm_num [d_c10, Donkey.init])⟩

/-- Counterexample to claim C6 as stated: for the agent `d_c6`
(energy 10, best health, 300 kg of grass) and `time_per_kg = 1`, calling
`eat` without a time budget does not behave like `eat` with budget 5 — the
uncapped call eats 18 kg and refills the energy to 100, while the capped
call eats 5 kg for energy 35. -/
theorem c6_counterexample_default_is_uncapped :
    d_c6.eat 1 none ≠ d_c6.eat 1 (some 5) := by
  have h1 : d_c6.eat 1 none =
      .ok ({ d_c6 with energy := 100, grass_kg := 282 },
           { kg_eaten := 18, energy_gained := 90, time_spent := 18 }) := by
    norm_num [Donkey.eat, Donkey.can_eat, d_c6, Donkey.init, energy_per_kg_of]
  have h2 : d_c6.eat 1 (some 5) =
      .ok ({ d_c6 with energy := 35, grass_kg := 295 },
           { kg_eaten := 5, energy_gained := 25, time_spent := 5 }) := by
    norm_num [Donkey.eat, Donkey.can_eat, d_c6, Donkey.init, energy_per_kg_of]
  rw [h1, h2]
  intro h
  have := (Prod.mk.injEq .. ▸ (Except.ok.injEq .. ▸ h))
  simp [d_c6, Donkey.init] at this

/-- Claim C6, amended (status: corrected).  Calling `eat` without a
`max_time_available` applies no per-call time ceiling at all: the
`max_time_available` parameter defaults to `None`
(src/src/models/donkey.py line 58), so the budget branch is skipped and the
agent eats the full `min(kg_needed, grass_kg)` in time `kg_eaten *
time_per_kg`.  (The fixed 5-unit ceiling is supplied by the caller
`simulate_star_visit`, optimal_route.py line 141, not by `eat`.) -/
theorem c6_eat_without_budget_applies_no_cap (d : Donkey) (t : ℚ)
    (h1 : d.can_eat = true) (h2 : 0 < d.grass_kg)
    (h3 : energy_per_kg_of d.health_state ≠ 0) :
    ∃ d1 info, d.eat t none = .ok (d1, info) ∧
      info.kg_eaten =
        min ((100 - d.energy) / energy_per_kg_of d.health_state) d.grass_kg ∧
      info.time_spent = info.kg_eaten * t ∧
      d1.energy = min 100 (d.energy + info.kg_eaten * energy_per_kg_of d.health_state) ∧
      d1.grass_kg = d.grass_kg - info.kg_eaten := by
  have heat : d.eat t none =
      .ok ({ d with
              energy := min 100 (d.energy +
                min ((100 - d.energy) / energy_per_kg_of d.health_state) d.grass_kg *
                  energy_per_kg_of d.health_state)
              grass_kg := d.grass_kg -
                min ((100 - d.energy) / energy_per_kg_of d.health_state) d.grass_kg },
           { kg_eaten := min ((100 - d.energy) / energy_per_kg_of d.health_state) d.grass_kg
             energy_gained :=
               min ((100 - d.energy) / energy_per_kg_of d.health_state) d.grass_kg *
                 energy_per_kg_of d.health_state
             time_spent :=
               min ((100 - d.energy) / energy_per_kg_of d.health_state) d.grass_kg * t }) := by
    simp only [Donkey.eat, h1]
    norm_num [not_le.mpr h2, h3]
  exact ⟨_, _, heat, rfl, rfl, rfl, rfl⟩

/-- Witness for the amended C6 theorem at the concrete agent `d_c6`. -/
theorem c6_witness :
    d_c6.can_eat = true ∧ 0 < d_c6.grass_kg ∧
      energy_per_kg_of d_c6.health_state ≠ 0 ∧
      (∃ d1 info, d_c6.eat 2 none = .ok (d1, info) ∧
        info.kg_eaten =
          min ((100 - d_c6.energy) / energy_per_kg_of d_c6.health_state) d_c6.grass_kg ∧
        info.time_spent = info.kg_eaten * 2 ∧
        d1.energy =
          min 100 (d_c6.energy + info.kg_eaten * energy_per_kg_of d_c6.health_state) ∧
        d1.grass_kg = d_c6.grass_kg - info.kg_eaten) := by
  have h1 : d_c6.can_eat = true := by
    norm_num [Donkey.can_eat, d_c6, Donkey.init]
  have h2 : 0 < d_c6.grass_kg := by norm_num [d_c6, Donkey.init]
  have h3 : energy_per_kg_of d_c6.health_state ≠ 0 := by
    norm_num [d_c6, Donkey.init, energy_per_kg_of]
  exact ⟨h1, h2, h3, c6_eat_without_budget_applies_no_cap d_c6 2 h1 h2 h3⟩

/-- Every `energy_per_kg` rate of the health table is non-negative. -/
theorem energy_per_kg_of_nonneg (hs : HealthState) : 0 ≤ energy_per_kg_of hs := by
  cases hs <;> norm_num [energy_per_kg_of]

/-- `eat` keeps the energy within `[0, 100]` whenever it returns normally,
the starting energy is within `[0, 100]` and the parameters are
non-negative. -/
theorem eat_energy_bounds (d : Donkey) (t : ℚ) (m : Option ℚ)
    (d1 : Donkey) (info : EatInfo)
    (he0 : 0 ≤ d.energy) (he1 : d.energy ≤ 100) (ht : 0 ≤ t)
    (hm : ∀ x ∈ m, 0 ≤ x) (h : d.eat t m = .ok (d1, info)) :
    0 ≤ d1.energy ∧ d1.energy ≤ 100 := by
  have key : ∀ g : ℚ, 0 ≤ g → d1.energy = min 100 (d.energy + g) →
      0 ≤ d1.energy ∧ d1.energy ≤ 100 := by
    intro g hg hd
    rw [hd]
    exact ⟨le_min (by norm_num) (by linarith), min_le_left _ _⟩
  cases m with
  | none =>
    simp only [Donkey.eat] at h
    split at h
    case isTrue hguard =>
      simp only [Except.ok.injEq, Prod.mk.injEq] at h
      rw [← h.1]
      exact ⟨he0, he1⟩
    case isFalse hguard =>
      push_neg at hguard
      split at h
      case isTrue => simp at h
      case isFalse hepk =>
        have hepk_pos : 0 < energy_per_kg_of d.health_state :=
          lt_of_le_of_ne (energy_per_kg_of_nonneg _) (Ne.symm hepk)
        have hkg : 0 ≤ min ((100 - d.energy) / energy_per_kg_of d.health_state) d.grass_kg :=
          le_min (div_nonneg (by linarith) hepk_pos.le) hguard.2.le
        simp only [Except.ok.injEq, Prod.mk.injEq] at h
        exact key _ (mul_nonneg hkg hepk_pos.le) (by rw [← h.1])
  | some mta =>
    have hmta : 0 ≤ mta := hm mta rfl
    simp only [Donkey.eat] at h
    split at h
    case isTrue hguard =>
      simp only [Except.ok.injEq, Prod.mk.injEq] at h
      rw [← h.1]
      exact ⟨he0, he1⟩
    case isFalse hguard =>
      push_neg at hguard
      split at h
      case isTrue => simp at h
      case isFalse hepk =>
        have hepk_pos : 0 < energy_per_kg_of d.health_state :=
          lt_of_le_of_ne (energy_per_kg_of_nonneg _) (Ne.symm hepk)
        have hkg : 0 ≤ min ((100 - d.energy) / energy_per_kg_of d.health_state) d.grass_kg :=
          le_min (div_nonneg (by linarith) hepk_pos.le) hguard.2.le
        split at h
        next hgt =>
          split at h
          next => simp at h
          next ht0 =>
            have htpos : 0 < t := lt_of_le_of_ne ht (Ne.symm ht0)
            simp only [Except.ok.injEq, Prod.mk.injEq] at h
            exact key _ (mul_nonneg (div_nonneg hmta htpos.le) hepk_pos.le)
              (by rw [← h.1])
        next hgt =>
          simp only [Except.ok.injEq, Prod.mk.injEq] at h
          exact key _ (mul_nonneg hkg hepk_pos.le) (by rw [← h.1])

/-- `do_research` keeps the energy within `[0, 100]` when the starting
energy is within `[0, 100]` and the parameters are non-negative. -/
theorem do_research_energy_bounds (d : Donkey) (t c : ℚ)
    (he0 : 0 ≤ d.energy) (he1 : d.energy ≤ 100) (ht : 0 ≤ t) (hc : 0 ≤ c) :
    0 ≤ (d.do_research t c).1.energy ∧ (d.do_research t c).1.energy ≤ 100 := by
  simp only [Donkey.do_research]
  split
  · exact ⟨le_refl 0, by norm_num⟩
  · rename_i hpos
    push_neg at hpos
    refine ⟨hpos.le, ?_⟩
    have : 0 ≤ t * c := mul_nonneg ht hc
    simpa using by linarith

/-- `use_hypergiant_portal` keeps the energy within `[0, 100]` when the
starting energy is non-negative. -/
theorem portal_energy_bounds (d : Donkey) (he0 : 0 ≤ d.energy) :
    0 ≤ d.use_hypergiant_portal.energy ∧ d.use_hypergiant_portal.energy ≤ 100 := by
  simp only [Donkey.use_hypergiant_portal]
  exact ⟨le_min (by norm_num) (by positivity), min_le_left _ _⟩

/-- Claim C7 (status: confirmed).  For every agent whose energy starts in
`[0, 100]`, after any sequence of eat / research / portal-bonus operations
with non-negative parameters, the energy remains within `[0, 100]`.
(When an operation raises — `eat`'s division by the dead state's zero rate —
the raise happens before any field is mutated, so the sequence stops with
the energy unchanged and still in range.) -/
theorem c7_energy_stays_within_bounds (d : Donkey) (ops : List DonkeyOp)
    (he0 : 0 ≤ d.energy) (he1 : d.energy ≤ 100)
    (hops : ∀ op ∈ ops, op.nonneg = true) :
    0 ≤ (run_donkey_ops d ops).energy ∧ (run_donkey_ops d ops).energy ≤ 100 := by
  induction ops generalizing d with
  | nil => exact ⟨he0, he1⟩
  | cons op rest ih =>
    have hop := hops op (List.mem_cons_self op rest)
    have hrest : ∀ o ∈ rest, o.nonneg = true := fun o ho =>
      hops o (List.mem_cons_of_mem op ho)
    simp only [run_donkey_ops]
    cases hstep : donkey_step d op with
    | error e => exact ⟨he0, he1⟩
    | ok d1 =>
      have hd1 : 0 ≤ d1.energy ∧ d1.energy ≤ 100 := by
        cases op with
        | eat_op t m =>
          simp only [DonkeyOp.nonneg, Bool.and_eq_true, decide_eq_true_eq] at hop
          have ht : 0 ≤ t := hop.1
          have hm : ∀ x ∈ m, 0 ≤ x := by
            intro x hx
            cases m with
            | none => cases hx
            | some y =>
              cases hx
              simpa using hop.2
          simp only [donkey_step] at hstep
          cases he : d.eat t m with
          | error e => rw [he] at hstep; cases hstep
          | ok p =>
            rw [he] at hstep
            simp only [Except.map, Except.ok.injEq] at hstep
            subst hstep
            exact eat_energy_bounds d t m p.1 p.2 he0 he1 ht hm he
        | research_op t c =>
          simp only [DonkeyOp.nonneg, Bool.and_eq_true, decide_eq_true_eq] at hop
          simp only [donkey_step, Except.ok.injEq] at hstep
          subst hstep
          exact do_research_energy_bounds d t c he0 he1 hop.1 hop.2
        | portal_op =>
          simp only [donkey_step, Except.ok.injEq] at hstep
          subst hstep
          exact portal_energy_bounds d he0
      exact ih d1 hd1.1 hd1.2 hrest

/-- Witness for the C7 theorem: a concrete agent running a concrete mix of
eat, research and portal operations. -/
theorem c7_witness :
    0 ≤ d_c7.energy ∧ d_c7.energy ≤ 100 ∧
      (∀ op ∈ ops_c7, op.nonneg = true) ∧
      0 ≤ (run_donkey_ops d_c7 ops_c7).energy ∧
      (run_donkey_ops d_c7 ops_c7).energy ≤ 100 := by
  have he0 : 0 ≤ d_c7.energy := by norm_num [d_c7, Donkey.init]
  have he1 : d_c7.energy ≤ 100 := by norm_num [d_c7, Donkey.init]
  have hops : ∀ op ∈ ops_c7, op.nonneg = true := by
    intro op hop
    simp only [ops_c7, List.mem_cons, List.not_mem_nil, or_false] at hop
    rcases hop with rfl | rfl | rfl | rfl | rfl | rfl <;>
      norm_num [DonkeyOp.nonneg]
  have h := c7_energy_stays_within_bounds d_c7 ops_c7 he0 he1 hops
  exact ⟨he0, he1, hops, h.1, h.2⟩

/-- Characterization of `dict_set`: lookup after update. -/
theorem dict_get_dict_set {α : Type} (m : List (Int × α)) (k k2 : Int) (v : α) :
    dict_get (dict_set m k v) k2 = if k2 = k then some v else dict_get m k2 := by
  induction m with
  | nil =>
    by_cases h : k2 = k <;> simp [dict_set, dict_get, h, Ne.symm]
  | cons p rest ih =>
    obtain ⟨k1, v1⟩ := p
    by_cases h1 : k1 = k
    · subst h1
      by_cases h2 : k2 = k1 <;> simp [dict_set, dict_get, h2, Ne.symm]
    · by_cases h2 : k1 = k2
      · subst h2
        simp [dict_set, dict_get, h1, Ne.symm h1, ih]
      · simp [dict_set, dict_get, h1, h2, ih]

/-- `edge_weight` through a `dict_set` of a whole inner dictionary. -/
theorem edge_weight_dict_set (adj : Adjacency) (k : Int)
    (inner : List (Int × ℚ)) (x y : Int) :
    edge_weight (dict_set adj k inner) x y =
      if x = k then dict_get inner y else edge_weight adj x y := by
  unfold edge_weight get_neighbors
  rw [dict_get_dict_set]
  by_cases h : x = k <;> simp [h]

/-- `add_vertex` never changes any edge weight. -/
theorem edge_weight_add_vertex (adj : Adjacency) (v x y : Int) :
    edge_weight (add_vertex adj v) x y = edge_weight adj x y := by
  unfold add_vertex
  cases hv : dict_get adj v with
  | some inner => rfl
  | none =>
    rw [edge_weight_dict_set]
    by_cases h : x = v
    · subst h
      simp [dict_get, edge_weight, get_neighbors, hv]
    · simp [h]

/-- The effect of `add_edge` on every directed entry: the two entries of the
new edge hold the new weight, everything else is untouched. -/
theorem edge_weight_add_edge (adj : Adjacency) (a b x y : Int) (w : ℚ) :
    edge_weight (add_edge adj a b w) x y =
      if (x = a ∧ y = b) ∨ (x = b ∧ y = a) then some w
      else edge_weight adj x y := by
  have hv : ∀ u z : Int,
      edge_weight (add_vertex (add_vertex adj a) b) u z = edge_weight adj u z := by
    intro u z
    rw [edge_weight_add_vertex, edge_weight_add_vertex]
  have hgn : ∀ (m : Adjacency) (u v : Int),
      dict_get (get_neighbors m u) v = edge_weight m u v := fun _ _ _ => rfl
  simp only [add_edge]
  by_cases hxa : x = a <;> by_cases hxb : x = b <;>
    by_cases hya : y = a <;> by_cases hyb : y = b <;>
    simp [edge_weight_dict_set, dict_get_dict_set, hgn, hxa, hxb, hya, hyb, hv] <;>
    simp_all

/-- `tuple(sorted((a, b)))` is symmetric in its two arguments. -/
theorem sorted_pair_comm (a b : Int) : sorted_pair a b = sorted_pair b a := by
  unfold sorted_pair
  split_ifs with h1 h2 h2
  · have hab : a = b := le_antisymm h1 h2
    rw [hab]
  · rfl
  · rfl
  · omega

/-- `is_edge_blocked` is symmetric for every graph state. -/
theorem is_edge_blocked_comm (sg : StarGraph) (a b : Int) :
    sg.is_edge_blocked a b = sg.is_edge_blocked b a := by
  unfold StarGraph.is_edge_blocked
  rw [sorted_pair_comm]

/-- The adjacency built by any sequence of graph operations from the empty
graph is symmetric. -/
theorem run_graph_ops_symmetric (sm : List (Int × StarData)) (ops : List GraphOp) :
    ∀ x y : Int,
      edge_weight (run_graph_ops (empty_star_graph sm) ops).graph x y =
        edge_weight (run_graph_ops (empty_star_graph sm) ops).graph y x := by
  suffices h : ∀ sg : StarGraph,
      (∀ x y : Int, edge_weight sg.graph x y = edge_weight sg.graph y x) →
      ∀ x y : Int,
        edge_weight (run_graph_ops sg ops).graph x y =
          edge_weight (run_graph_ops sg ops).graph y x by
    exact h _ (fun x y => rfl)
  induction ops with
  | nil => exact fun sg hs => hs
  | cons op rest ih =>
    intro sg hs
    simp only [run_graph_ops, List.foldl_cons]
    apply ih
    intro x y
    cases op with
    | add_edge_op a b w =>
      simp only [graph_step]
      rw [edge_weight_add_edge, edge_weight_add_edge]
      by_cases hc : (x = a ∧ y = b) ∨ (x = b ∧ y = a)
      · rw [if_pos hc, if_pos (by tauto)]
      · rw [if_neg hc, if_neg (by tauto)]
        exact hs x y
    | set_blocked_op a b bl =>
      simp only [graph_step, StarGraph.set_edge_blocked]
      split <;> exact hs x y

/-- Claim C8 (status: confirmed).  After any sequence of `add_edge` and
edge-blocking operations starting from an empty graph, the adjacency is
symmetric: every directed entry `x → y` carries the same weight as `y → x`
and the blocked state is symmetric; and appending `add_edge x y w` makes
both `neighbors(x)` contain `(y, w)` and `neighbors(y)` contain `(x, w)`. -/
theorem c8_adjacency_always_symmetric (sm : List (Int × StarData))
    (ops : List GraphOp) (x y : Int) (w : ℚ) :
    (edge_weight (run_graph_ops (empty_star_graph sm) ops).graph x y =
       edge_weight (run_graph_ops (empty_star_graph sm) ops).graph y x) ∧
    ((run_graph_ops (empty_star_graph sm) ops).is_edge_blocked x y =
       (run_graph_ops (empty_star_graph sm) ops).is_edge_blocked y x) ∧
    (edge_weight
        (run_graph_ops (empty_star_graph sm) (ops ++ [.add_edge_op x y w])).graph x y =
       some w) ∧
    (edge_weight
        (run_graph_ops (empty_star_graph sm) (ops ++ [.add_edge_op x y w])).graph y x =
       some w) := by
  refine ⟨run_graph_ops_symmetric sm ops x y, is_edge_blocked_comm _ x y, ?_, ?_⟩ <;>
  · simp only [run_graph_ops, List.foldl_append, List.foldl_cons, List.foldl_nil,
      graph_step]
    rw [edge_weight_add_edge]
    simp

/-- Adding an element to a Python set makes it a member. -/
theorem mem_set_add_self (s : List (Int × Int)) (e : Int × Int) :
    e ∈ set_add s e := by
  unfold set_add
  split
  · assumption
  · exact List.mem_cons_self e s

/-- Discarding a freshly added element restores the original set. -/
theorem set_discard_set_add (s : List (Int × Int)) (e : Int × Int)
    (h : e ∉ s) : set_discard (set_add s e) e = s := by
  have hne : ∀ x ∈ s, x ≠ e := fun x hx hxe => h (hxe ▸ hx)
  unfold set_add set_discard
  rw [if_neg h, List.filter_cons_of_neg (by simp)]
  exact List.filter_eq_self.mpr (fun x hx => by simpa using hne x hx)

/-- Claim C9 (status: confirmed).  Blocking the edge between `a` and `b`
immediately removes `b` from the filtered neighbors of `a` and `a` from the
filtered neighbors of `b`; and when the edge was not blocked before,
unblocking it afterwards restores every star's filtered neighbor list —
with the original weights — exactly as it was, so block-then-unblock is the
identity on the neighbor results. -/
theorem c9_block_then_unblock (sg : StarGraph) (a b : Int)
    (h : sg.is_edge_blocked a b = false) :
    (∀ p ∈ (sg.set_edge_blocked a b true).get_neighbors_with_distance a, p.1 ≠ b) ∧
    (∀ p ∈ (sg.set_edge_blocked a b true).get_neighbors_with_distance b, p.1 ≠ a) ∧
    (∀ x : Int,
      ((sg.set_edge_blocked a b true).set_edge_blocked a b false).get_neighbors_with_distance x =
        sg.get_neighbors_with_distance x) := by
  have hblocked : (sg.set_edge_blocked a b true).is_edge_blocked a b = true := by
    simp only [StarGraph.set_edge_blocked, StarGraph.is_edge_blocked, if_pos]
    exact decide_eq_true (mem_set_add_self _ _)
  have he : sorted_pair a b ∉ sg.blocked_edges := by
    simpa [StarGraph.is_edge_blocked] using h
  have hrestore : (sg.set_edge_blocked a b true).set_edge_blocked a b false = sg := by
    have hred : (sg.set_edge_blocked a b true).set_edge_blocked a b false =
        { sg with blocked_edges :=
            set_discard (set_add sg.blocked_edges (sorted_pair a b)) (sorted_pair a b) } :=
      rfl
    rw [hred, set_discard_set_add sg.blocked_edges (sorted_pair a b) he]
  refine ⟨?_, ?_, fun x => by rw [hrestore]⟩
  · intro p hp hpb
    simp only [StarGraph.get_neighbors_with_distance, List.mem_filter,
      decide_eq_true_eq] at hp
    rw [hpb] at hp
    exact hp.2 hblocked
  · intro p hp hpa
    simp only [StarGraph.get_neighbors_with_distance, List.mem_filter,
      decide_eq_true_eq] at hp
    rw [hpa] at hp
    rw [is_edge_blocked_comm] at hp
    exact hp.2 hblocked

/-- Witness for the C9 theorem: blocking and unblocking edge 1-2 of the
concrete graph `sg_c9`. -/
theorem c9_witness :
    sg_c9.is_edge_blocked 1 2 = false ∧
      ((∀ p ∈ (sg_c9.set_edge_blocked 1 2 true).get_neighbors_with_distance 1, p.1 ≠ 2) ∧
       (∀ p ∈ (sg_c9.set_edge_blocked 1 2 true).get_neighbors_with_distance 2, p.1 ≠ 1) ∧
       (∀ x : Int,
         ((sg_c9.set_edge_blocked 1 2 true).set_edge_blocked 1 2 false).get_neighbors_with_distance x =
           sg_c9.get_neighbors_with_distance x)) :=
  ⟨rfl, c9_block_then_unblock sg_c9 1 2 rfl⟩
